import Mathlib

/-!
# GuiControl (engine/source/gui/guiControl.h)

A shallow embedding of the inline member functions of `GuiControl` and of the
data members they read and write, followed by the properties proved of them.

Conventions of the embedding:

* a member function is a function on the control state; a function that
  returns a value returns the pair (value, state after the call), a `void`
  function returns the state after the call;
* `S32` is `Int`: no function of the header does arithmetic on an `S32`, so
  no wrap-around can occur;
* a pointer is `Option Nat` (null, or the identity of the object pointed to),
  a `StringTableEntry` is `Option String`;
* the static members (`smCursorChanged`, `smDesignTime`, `smEditorHandle`,
  `smPrevResponder`, `smCurResponder`) and the state of the base classes
  `SimGroup` and `Tickable` are not part of the control state: no function
  with a body in the header reads or writes them.
-/

set_option autoImplicit false

/-! ## Types used by the header and declared in other files -/

/-- Signed 32-bit integer of platform/types.h. -/
abbrev S32 := Int

/-- A 32-bit float, kept as its IEEE-754 bit pattern: the header only stores
and forwards floats. -/
structure F32 where
  bits : Nat
deriving DecidableEq, Repr

/-- Object reference: null, or the identity of the referenced object. -/
abbrev Ptr := Option Nat

/-- Pointer into the string table: null, or the string. -/
abbrev StringTableEntry := Option String

/-- Integer point of math/mPoint.h; the header reads its members x and y. -/
structure Point2I where
  x : S32
  y : S32
deriving DecidableEq, Repr

/-- Modelled from the spec: Point2I::set(x, y) is defined in math/mPoint.h,
which is not among the sources; it assigns both coordinates. -/
def Point2I.set (_p : Point2I) (x y : S32) : Point2I :=
  { x := x, y := y }

/-- Float point of math/mPoint.h. -/
structure Point2F where
  x : F32
  y : F32
deriving DecidableEq, Repr

/-- Integer rectangle of math/mRect.h; the header reads its members point
and extent. -/
structure RectI where
  point : Point2I
  extent : Point2I
deriving DecidableEq, Repr

/-- Colour of graphics/gColor.h. -/
structure ColorI where
  red : Nat
  green : Nat
  blue : Nat
  alpha : Nat
deriving DecidableEq, Repr

/-- Float vector of 2d/core/Vector2.h; the header reads its members x and y. -/
structure Vector2 where
  x : F32
  y : F32
deriving DecidableEq, Repr

namespace GuiControl

/-! ## Enumerations

`horizSizingOptions` and `vertSizingOptions` are unscoped enumerations
without a fixed underlying type.  Their enumerators run from 0 to 4, so the
values of each enumeration are those of the smallest bit-field holding 4:
the integers 0 to 7.  A value is kept as its integer code; the conversion
to `S32` done by the setters is the field `code`. -/

/-- Values of `enum horizSizingOptions`. -/
structure horizSizingOptions where
  code : S32
  inRange : 0 ≤ code ∧ code ≤ 7
deriving DecidableEq

/-- Values of `enum vertSizingOptions`. -/
structure vertSizingOptions where
  code : S32
  inRange : 0 ≤ code ∧ code ≤ 7
deriving DecidableEq

/-- fixed on the left and width -/
def horizResizeRight : horizSizingOptions := ⟨0, by decide⟩
/-- fixed on the left and right -/
def horizResizeWidth : horizSizingOptions := ⟨horizResizeRight.code + 1, by decide⟩
/-- fixed on the right and width -/
def horizResizeLeft : horizSizingOptions := ⟨horizResizeWidth.code + 1, by decide⟩
/-- centred -/
def horizResizeCenter : horizSizingOptions := ⟨horizResizeLeft.code + 1, by decide⟩
/-- resize relative -/
def horizResizeRelative : horizSizingOptions := ⟨horizResizeCenter.code + 1, by decide⟩

/-- fixed on the top and in height -/
def vertResizeBottom : vertSizingOptions := ⟨0, by decide⟩
/-- fixed on the top and bottom -/
def vertResizeHeight : vertSizingOptions := ⟨vertResizeBottom.code + 1, by decide⟩
/-- fixed in height and on the bottom -/
def vertResizeTop : vertSizingOptions := ⟨vertResizeHeight.code + 1, by decide⟩
/-- centred -/
def vertResizeCenter : vertSizingOptions := ⟨vertResizeTop.code + 1, by decide⟩
/-- resize relative -/
def vertResizeRelative : vertSizingOptions := ⟨vertResizeCenter.code + 1, by decide⟩

/-- The conversion `static_cast<horizSizingOptions>(n)` of an `S32`: defined
when n is a value of the enumeration, undefined behaviour otherwise. -/
def horizSizingOptions.ofS32 (n : S32) : Option horizSizingOptions :=
  if h : 0 ≤ n ∧ n ≤ 7 then some ⟨n, h⟩ else none

/-- The conversion `static_cast<vertSizingOptions>(n)` of an `S32`: defined
when n is a value of the enumeration, undefined behaviour otherwise. -/
def vertSizingOptions.ofS32 (n : S32) : Option vertSizingOptions :=
  if h : 0 ≤ n ∧ n ≤ 7 then some ⟨n, h⟩ else none

end GuiControl

/-! ## Control state -/

/-- The non-static data members of `GuiControl`, in declaration order.
`AlignmentType` and `VertAlignmentType` (gui/guiTypes.h) are kept as their
integer codes. -/
structure GuiControl where
  mProfile : Ptr
  mTooltipProfile : Ptr
  mTipHoverTime : S32
  mTooltipWidth : S32
  mVisible : Bool
  mActive : Bool
  mAwake : Bool
  mSetFirstResponder : Bool
  mCanSave : Bool
  mIsContainer : Bool
  mUseInput : Bool
  mLayer : S32
  mBounds : RectI
  mMinExtent : Point2I
  mRenderInsetLT : Point2I
  mRenderInsetRB : Point2I
  mLangTableName : StringTableEntry
  mLangTable : Ptr
  mFirstResponder : Ptr
  mHorizSizing : S32
  mVertSizing : S32
  mStoredExtent : Point2I
  mStoredRelativePosH : Point2F
  mStoredRelativePosV : Point2F
  mUseRelPosH : Bool
  mUseRelPosV : Bool
  mConsoleVariable : StringTableEntry
  mConsoleCommand : StringTableEntry
  mAltConsoleCommand : StringTableEntry
  mAcceleratorKey : StringTableEntry
  mTooltip : StringTableEntry
  mText : StringTableEntry
  mTextID : StringTableEntry
  mTextWrap : Bool
  mTextExtend : Bool
  mAlignment : S32
  mVAlignment : S32
  mFontSizeAdjust : F32
  mFontColor : ColorI
  mOverrideFontColor : Bool
deriving DecidableEq

/-- What the console setters call and the header does not define: the
string constructor of `Vector2` (2d/core/Vector2.h), the conversion of a
float to `S32` applied to the arguments of `Point2I(v.x, v.y)` and
`mMinExtent.set(v.x, v.y)`, and the virtual functions `setPosition` and
`setExtent`, whose implementation is the one of the dynamic type of the
control. -/
structure Externals where
  parseVector2 : String → Vector2
  f32ToS32 : F32 → S32
  setPosition : Point2I → GuiControl → GuiControl
  setExtent : Point2I → GuiControl → GuiControl

namespace GuiControl

/-! ## Accessors -/

/-- Returns position of the control -/
def getPosition (c : GuiControl) : Point2I × GuiControl := (c.mBounds.point, c)

/-- Returns extents of the control -/
def getExtent (c : GuiControl) : Point2I × GuiControl := (c.mBounds.extent, c)

/-- Returns the bounds of the control -/
def getBounds (c : GuiControl) : RectI × GuiControl := (c.mBounds, c)

/-- Returns minimum size the control can be -/
def getMinExtent (c : GuiControl) : Point2I × GuiControl := (c.mMinExtent, c)

/-- Returns the X position of the control -/
def getLeft (c : GuiControl) : S32 × GuiControl := (c.mBounds.point.x, c)

/-- Returns the Y position of the control -/
def getTop (c : GuiControl) : S32 × GuiControl := (c.mBounds.point.y, c)

/-- Returns the width of the control -/
def getWidth (c : GuiControl) : S32 × GuiControl := (c.mBounds.extent.x, c)

/-- Returns the height of the control -/
def getHeight (c : GuiControl) : S32 × GuiControl := (c.mBounds.extent.y, c)

/-- `setTextWrap(wrap) { mTextWrap = wrap; }` -/
def setTextWrap (wrap : Bool) (c : GuiControl) : GuiControl :=
  { c with mTextWrap := wrap }

/-- `getTextWrap() { return mTextWrap; }` -/
def getTextWrap (c : GuiControl) : Bool × GuiControl := (c.mTextWrap, c)

/-- `setTextExtend(extend) { mTextExtend = extend; }` -/
def setTextExtend (extend : Bool) (c : GuiControl) : GuiControl :=
  { c with mTextExtend := extend }

/-- `getTextExtend() { return mTextExtend; }` -/
def getTextExtend (c : GuiControl) : Bool × GuiControl := (c.mTextExtend, c)

/-- `getHorizSizing() { return static_cast<horizSizingOptions>(mHorizSizing); }` -/
def getHorizSizing (c : GuiControl) : Option horizSizingOptions × GuiControl :=
  (horizSizingOptions.ofS32 c.mHorizSizing, c)

/-- `getVertSizing() { return static_cast<vertSizingOptions>(mVertSizing); }` -/
def getVertSizing (c : GuiControl) : Option vertSizingOptions × GuiControl :=
  (vertSizingOptions.ofS32 c.mVertSizing, c)

/-- `setHorizSizing(sizing) { mHorizSizing = sizing; }` -/
def setHorizSizing (sizing : horizSizingOptions) (c : GuiControl) : GuiControl :=
  { c with mHorizSizing := sizing.code }

/-- `setVertSizing(sizing) { mVertSizing = sizing; }` -/
def setVertSizing (sizing : vertSizingOptions) (c : GuiControl) : GuiControl :=
  { c with mVertSizing := sizing.code }

/-! ## Stored extent and stored relative position -/

/-- Expells all stored extent: `resetStoredExtent() { mStoredExtent.set(0,0); }` -/
def resetStoredExtent (c : GuiControl) : GuiControl :=
  { c with mStoredExtent := c.mStoredExtent.set 0 0 }

/-- `resetStoredRelPos() { mUseRelPosH = false; mUseRelPosV = false; }` -/
def resetStoredRelPos (c : GuiControl) : GuiControl :=
  { { c with mUseRelPosH := false } with mUseRelPosV := false }

/-! ## Console field setters (static functions taking the control) -/

/-- `setExtentFn(obj, data)`: builds a `Vector2` from the string, calls the
virtual `setExtent` with the point of its converted coordinates, then
`resetStoredExtent` and `resetStoredRelPos`; returns false. -/
def setExtentFn (ext : Externals) (data : String) (obj : GuiControl) : Bool × GuiControl :=
  let ctrl := obj
  let v := ext.parseVector2 data
  let ctrl := ext.setExtent (Point2I.mk (ext.f32ToS32 v.x) (ext.f32ToS32 v.y)) ctrl
  let ctrl := resetStoredExtent ctrl
  let ctrl := resetStoredRelPos ctrl
  (false, ctrl)

/-- `setMinExtentFn(obj, data)`: builds a `Vector2` from the string, sets
`mMinExtent` to its converted coordinates, then `resetStoredExtent` and
`resetStoredRelPos`; returns false. -/
def setMinExtentFn (ext : Externals) (data : String) (obj : GuiControl) : Bool × GuiControl :=
  let ctrl := obj
  let v := ext.parseVector2 data
  let ctrl := { ctrl with mMinExtent := ctrl.mMinExtent.set (ext.f32ToS32 v.x) (ext.f32ToS32 v.y) }
  let ctrl := resetStoredExtent ctrl
  let ctrl := resetStoredRelPos ctrl
  (false, ctrl)

/-- `writeMinExtentFn(obj, data)`: true when a coordinate of `mMinExtent` is
not zero. -/
def writeMinExtentFn (_data : String) (obj : GuiControl) : Bool × GuiControl :=
  (decide (obj.mMinExtent.x ≠ 0) || decide (obj.mMinExtent.y ≠ 0), obj)

/-- `setPositionFn(obj, data)`: builds a `Vector2` from the string, calls
the virtual `setPosition` with the point of its converted coordinates, then
`resetStoredRelPos`; returns false. -/
def setPositionFn (ext : Externals) (data : String) (obj : GuiControl) : Bool × GuiControl :=
  let ctrl := obj
  let v := ext.parseVector2 data
  let ctrl := ext.setPosition (Point2I.mk (ext.f32ToS32 v.x) (ext.f32ToS32 v.y)) ctrl
  let ctrl := resetStoredRelPos ctrl
  (false, ctrl)

/-! ## Editor mouse events

`GuiEvent` is declared in gui/guiTypes.h; the hooks do not look at it, so it
is a type parameter. -/

/-- `onMouseDownEditor(event, offset) { return false; }` -/
def onMouseDownEditor {GuiEvent : Type} (_event : GuiEvent) (_offset : Point2I)
    (c : GuiControl) : Bool × GuiControl := (false, c)

/-- `onMouseUpEditor(event, offset) { return false; }` -/
def onMouseUpEditor {GuiEvent : Type} (_event : GuiEvent) (_offset : Point2I)
    (c : GuiControl) : Bool × GuiControl := (false, c)

/-- `onRightMouseDownEditor(event, offset) { return false; }` -/
def onRightMouseDownEditor {GuiEvent : Type} (_event : GuiEvent) (_offset : Point2I)
    (c : GuiControl) : Bool × GuiControl := (false, c)

/-- `onMouseDraggedEditor(event, offset) { return false; }` -/
def onMouseDraggedEditor {GuiEvent : Type} (_event : GuiEvent) (_offset : Point2I)
    (c : GuiControl) : Bool × GuiControl := (false, c)

/-! ## First responder -/

/-- Returns the first responder for this chain:
`getFirstResponder() { return mFirstResponder; }` -/
def getFirstResponder (c : GuiControl) : Ptr × GuiControl := (c.mFirstResponder, c)

end GuiControl

/-! ## The minimum-extent predicate -/

namespace GuiControl

/-- The control is at least as large as its minimum extent:
`getWidth() >= getMinExtent().x` and `getHeight() >= getMinExtent().y`. -/
def sizeAtLeastMin (c : GuiControl) : Prop :=
  (getWidth c).1 ≥ (getMinExtent c).1.x ∧ (getHeight c).1 ≥ (getMinExtent c).1.y

instance (c : GuiControl) : Decidable (sizeAtLeastMin c) := by
  unfold sizeAtLeastMin
  exact inferInstance

/-! ## A concrete control and concrete externals, used to evaluate the model -/

/-- The value of a finite float converted to an integer: the fraction is
discarded (truncation towards zero). -/
def truncF32 (f : F32) : S32 :=
  let sign := f.bits / 2 ^ 31 % 2
  let e := f.bits / 2 ^ 23 % 256
  let m := f.bits % 2 ^ 23
  let mag : Nat :=
    if e = 0 then 0
    else if 150 ≤ e then (2 ^ 23 + m) * 2 ^ (e - 150)
    else (2 ^ 23 + m) / 2 ^ (150 - e)
  if sign = 1 then -(mag : Int) else (mag : Int)

/-- The float 100.0 (bit pattern 0x42C80000). -/
def f32Hundred : F32 := ⟨0x42C80000⟩

/-- A 64 by 64 control at (10, 20) with minimum extent (8, 2), anchored
left (horizontal code 2) and top (vertical code 2), holding a stored extent
and using stored relative positions. -/
def demoControl : GuiControl where
  mProfile := some 1
  mTooltipProfile := none
  mTipHoverTime := 1000
  mTooltipWidth := 250
  mVisible := true
  mActive := true
  mAwake := false
  mSetFirstResponder := false
  mCanSave := true
  mIsContainer := false
  mUseInput := true
  mLayer := 0
  mBounds := ⟨⟨10, 20⟩, ⟨64, 64⟩⟩
  mMinExtent := ⟨8, 2⟩
  mRenderInsetLT := ⟨0, 0⟩
  mRenderInsetRB := ⟨0, 0⟩
  mLangTableName := none
  mLangTable := none
  mFirstResponder := none
  mHorizSizing := 2
  mVertSizing := 2
  mStoredExtent := ⟨3, 5⟩
  mStoredRelativePosH := ⟨⟨0⟩, ⟨0⟩⟩
  mStoredRelativePosV := ⟨⟨0⟩, ⟨0⟩⟩
  mUseRelPosH := true
  mUseRelPosV := true
  mConsoleVariable := none
  mConsoleCommand := none
  mAltConsoleCommand := none
  mAcceleratorKey := none
  mTooltip := none
  mText := some "ok"
  mTextID := none
  mTextWrap := false
  mTextExtend := false
  mAlignment := 0
  mVAlignment := 0
  mFontSizeAdjust := ⟨0x3F800000⟩
  mFontColor := ⟨0, 0, 0, 255⟩
  mOverrideFontColor := false

/-- Externals for the evaluation: the string "100 100" parses to the vector
(100.0, 100.0) and every other string to (0.0, 0.0); floats are truncated;
`setPosition` and `setExtent` store the point in the bounds. -/
def demoExternals : Externals where
  parseVector2 := fun s => if s = "100 100" then ⟨f32Hundred, f32Hundred⟩ else ⟨⟨0⟩, ⟨0⟩⟩
  f32ToS32 := truncF32
  setPosition := fun p c => { c with mBounds := { c.mBounds with point := p } }
  setExtent := fun p c => { c with mBounds := { c.mBounds with extent := p } }

end GuiControl

/-! ## Properties -/

namespace GuiControl

/-- The cast of an integer from 0 to 7 to `horizSizingOptions` gives the
value with that code. -/
theorem horizSizingOptions.ofS32_horiz_inRange (n : S32) (h : 0 ≤ n ∧ n ≤ 7) :
    horizSizingOptions.ofS32 n = some ⟨n, h⟩ := by
  unfold horizSizingOptions.ofS32
  rw [dif_pos h]

/-- The cast of an integer from 0 to 7 to `vertSizingOptions` gives the
value with that code. -/
theorem vertSizingOptions.ofS32_vert_inRange (n : S32) (h : 0 ≤ n ∧ n ≤ 7) :
    vertSizingOptions.ofS32 n = some ⟨n, h⟩ := by
  unfold vertSizingOptions.ofS32
  rw [dif_pos h]

/-- An integer between 0 and 4 is one of 0, 1, 2, 3, 4. -/
theorem int_cases_upto_four (n : Int) (h0 : 0 ≤ n) (h4 : n ≤ 4) :
    n = 0 ∨ n = 1 ∨ n = 2 ∨ n = 3 ∨ n = 4 := by
  omega

/-- Two values of `horizSizingOptions` with the same code are equal. -/
theorem horizSizingOptions.horiz_code_injective (a b : horizSizingOptions)
    (h : a.code = b.code) : a = b := by
  cases a
  cases b
  cases h
  rfl

/-- Two values of `vertSizingOptions` with the same code are equal. -/
theorem vertSizingOptions.vert_code_injective (a b : vertSizingOptions)
    (h : a.code = b.code) : a = b := by
  cases a
  cases b
  cases h
  rfl

/-- C1: the scalar geometry accessors agree with the bounds rectangle.
`getLeft` and `getTop` are the coordinates of `getPosition`, `getWidth` and
`getHeight` those of `getExtent`, `getBounds` is the rectangle made of
`getPosition` and `getExtent`, `getMinExtent` returns `mMinExtent`, and each
of the eight accessors returns the state it was called on. -/
theorem accessors_agree_with_bounds (c : GuiControl) :
    (getLeft c).1 = (getPosition c).1.x ∧
    (getTop c).1 = (getPosition c).1.y ∧
    (getWidth c).1 = (getExtent c).1.x ∧
    (getHeight c).1 = (getExtent c).1.y ∧
    (getBounds c).1 = RectI.mk (getPosition c).1 (getExtent c).1 ∧
    (getMinExtent c).1 = c.mMinExtent ∧
    (getPosition c).2 = c ∧ (getExtent c).2 = c ∧ (getBounds c).2 = c ∧
    (getMinExtent c).2 = c ∧ (getLeft c).2 = c ∧ (getTop c).2 = c ∧
    (getWidth c).2 = c ∧ (getHeight c).2 = c :=
  ⟨rfl, rfl, rfl, rfl, rfl, rfl, rfl, rfl, rfl, rfl, rfl, rfl, rfl, rfl⟩

/-- C2: sizing-option round trip.  For every value h of `horizSizingOptions`
and every control state, `getHorizSizing` called after `setHorizSizing h`
returns h; for every value v of `vertSizingOptions`, `getVertSizing` called
after `setVertSizing v` returns v. -/
theorem sizing_get_after_set (c : GuiControl) (h : horizSizingOptions)
    (v : vertSizingOptions) :
    (getHorizSizing (setHorizSizing h c)).1 = some h ∧
    (getVertSizing (setVertSizing v c)).1 = some v :=
  ⟨horizSizingOptions.ofS32_horiz_inRange h.code h.inRange,
   vertSizingOptions.ofS32_vert_inRange v.code v.inRange⟩

/-- C5: the base-class editor mouse hooks never block the editor.  For every
event and every offset, `onMouseDownEditor`, `onMouseUpEditor`,
`onRightMouseDownEditor` and `onMouseDraggedEditor` return false and leave
the control state unchanged. -/
theorem editor_mouse_hooks_return_false {GuiEvent : Type} (event : GuiEvent)
    (offset : Point2I) (c : GuiControl) :
    onMouseDownEditor event offset c = (false, c) ∧
    onMouseUpEditor event offset c = (false, c) ∧
    onRightMouseDownEditor event offset c = (false, c) ∧
    onMouseDraggedEditor event offset c = (false, c) :=
  ⟨rfl, rfl, rfl, rfl⟩

/-- C6: `resetStoredExtent` expels all stored extent and nothing else.  After
the call `mStoredExtent` is (0,0); the bounds, the minimum extent, the
relative-position flags, the stored relative positions, the sizing modes and
the text flags are those of the state before; putting the old stored extent
back gives the state before, so no other member changed at all; and calling
it twice is the same as calling it once. -/
theorem resetStoredExtent_frame (c : GuiControl) :
    (resetStoredExtent c).mStoredExtent = Point2I.mk 0 0 ∧
    (resetStoredExtent c).mBounds = c.mBounds ∧
    (resetStoredExtent c).mMinExtent = c.mMinExtent ∧
    (resetStoredExtent c).mUseRelPosH = c.mUseRelPosH ∧
    (resetStoredExtent c).mUseRelPosV = c.mUseRelPosV ∧
    (resetStoredExtent c).mStoredRelativePosH = c.mStoredRelativePosH ∧
    (resetStoredExtent c).mStoredRelativePosV = c.mStoredRelativePosV ∧
    (resetStoredExtent c).mHorizSizing = c.mHorizSizing ∧
    (resetStoredExtent c).mVertSizing = c.mVertSizing ∧
    (resetStoredExtent c).mTextWrap = c.mTextWrap ∧
    (resetStoredExtent c).mTextExtend = c.mTextExtend ∧
    { resetStoredExtent c with mStoredExtent := c.mStoredExtent } = c ∧
    resetStoredExtent (resetStoredExtent c) = resetStoredExtent c :=
  ⟨rfl, rfl, rfl, rfl, rfl, rfl, rfl, rfl, rfl, rfl, rfl, rfl, rfl⟩

/-- C7: the sizing policies are per-axis.  `setHorizSizing h` leaves
`getVertSizing` unchanged and `setVertSizing v` leaves `getHorizSizing`
unchanged; the two setters commute; neither changes the bounds or the
minimum extent. -/
theorem sizing_setters_per_axis (c : GuiControl) (h : horizSizingOptions)
    (v : vertSizingOptions) :
    (getVertSizing (setHorizSizing h c)).1 = (getVertSizing c).1 ∧
    (getHorizSizing (setVertSizing v c)).1 = (getHorizSizing c).1 ∧
    setHorizSizing h (setVertSizing v c) = setVertSizing v (setHorizSizing h c) ∧
    (getBounds (setHorizSizing h c)).1 = (getBounds c).1 ∧
    (getMinExtent (setHorizSizing h c)).1 = (getMinExtent c).1 ∧
    (getBounds (setVertSizing v c)).1 = (getBounds c).1 ∧
    (getMinExtent (setVertSizing v c)).1 = (getMinExtent c).1 :=
  ⟨rfl, rfl, rfl, rfl, rfl, rfl, rfl⟩

/-- C8: the sizing enumerations encode as consecutive integers from 0 in
declaration order, two values with the same code are equal, and when the
integer stored in `mHorizSizing` (resp. `mVertSizing`) is between 0 and 4,
`getHorizSizing` (resp. `getVertSizing`) returns a value, that value has the
stored integer as its code, and it is one of the five named options. -/
theorem sizing_enum_encoding (c : GuiControl) :
    (horizResizeRight.code = 0 ∧ horizResizeWidth.code = 1 ∧
      horizResizeLeft.code = 2 ∧ horizResizeCenter.code = 3 ∧
      horizResizeRelative.code = 4) ∧
    (vertResizeBottom.code = 0 ∧ vertResizeHeight.code = 1 ∧
      vertResizeTop.code = 2 ∧ vertResizeCenter.code = 3 ∧
      vertResizeRelative.code = 4) ∧
    (∀ a b : horizSizingOptions, a.code = b.code → a = b) ∧
    (∀ a b : vertSizingOptions, a.code = b.code → a = b) ∧
    (0 ≤ c.mHorizSizing → c.mHorizSizing ≤ 4 →
      ∃ o : horizSizingOptions, (getHorizSizing c).1 = some o ∧
        o.code = c.mHorizSizing ∧
        o ∈ [horizResizeRight, horizResizeWidth, horizResizeLeft,
              horizResizeCenter, horizResizeRelative]) ∧
    (0 ≤ c.mVertSizing → c.mVertSizing ≤ 4 →
      ∃ o : vertSizingOptions, (getVertSizing c).1 = some o ∧
        o.code = c.mVertSizing ∧
        o ∈ [vertResizeBottom, vertResizeHeight, vertResizeTop,
              vertResizeCenter, vertResizeRelative]) := by
  refine ⟨by decide, by decide, horizSizingOptions.horiz_code_injective,
    vertSizingOptions.vert_code_injective, ?_, ?_⟩
  · intro h0 h4
    have hr : 0 ≤ c.mHorizSizing ∧ c.mHorizSizing ≤ 7 := ⟨h0, le_trans h4 (by decide)⟩
    refine ⟨⟨c.mHorizSizing, hr⟩, horizSizingOptions.ofS32_horiz_inRange _ hr, rfl, ?_⟩
    have hcases := int_cases_upto_four c.mHorizSizing h0 h4
    simp only [List.mem_cons, List.mem_singleton, List.not_mem_nil, or_false]
    rcases hcases with e | e | e | e | e
    · exact Or.inl (horizSizingOptions.horiz_code_injective _ _ e)
    · exact Or.inr (Or.inl (horizSizingOptions.horiz_code_injective _ _ e))
    · exact Or.inr (Or.inr (Or.inl (horizSizingOptions.horiz_code_injective _ _ e)))
    · exact Or.inr (Or.inr (Or.inr (Or.inl (horizSizingOptions.horiz_code_injective _ _ e))))
    · exact Or.inr (Or.inr (Or.inr (Or.inr (horizSizingOptions.horiz_code_injective _ _ e))))
  · intro h0 h4
    have hr : 0 ≤ c.mVertSizing ∧ c.mVertSizing ≤ 7 := ⟨h0, le_trans h4 (by decide)⟩
    refine ⟨⟨c.mVertSizing, hr⟩, vertSizingOptions.ofS32_vert_inRange _ hr, rfl, ?_⟩
    have hcases := int_cases_upto_four c.mVertSizing h0 h4
    simp only [List.mem_cons, List.mem_singleton, List.not_mem_nil, or_false]
    rcases hcases with e | e | e | e | e
    · exact Or.inl (vertSizingOptions.vert_code_injective _ _ e)
    · exact Or.inr (Or.inl (vertSizingOptions.vert_code_injective _ _ e))
    · exact Or.inr (Or.inr (Or.inl (vertSizingOptions.vert_code_injective _ _ e)))
    · exact Or.inr (Or.inr (Or.inr (Or.inl (vertSizingOptions.vert_code_injective _ _ e))))
    · exact Or.inr (Or.inr (Or.inr (Or.inr (vertSizingOptions.vert_code_injective _ _ e))))

/-- C8 at the concrete control, whose stored sizing codes are both 2: the
getters return the options `horizResizeLeft` and `vertResizeTop`. -/
theorem sizing_enum_encoding_witness :
    (0 : Int) ≤ demoControl.mHorizSizing ∧ demoControl.mHorizSizing ≤ 4 ∧
    (getHorizSizing demoControl).1 = some horizResizeLeft ∧
    (getVertSizing demoControl).1 = some vertResizeTop := by
  have H := sizing_enum_encoding demoControl
  obtain ⟨o, ho, hc, -⟩ := H.2.2.2.2.1 (by decide) (by decide)
  obtain ⟨p, hp, hpc, -⟩ := H.2.2.2.2.2 (by decide) (by decide)
  have eo : o = horizResizeLeft := H.2.2.1 o horizResizeLeft hc
  have ep : p = vertResizeTop := H.2.2.2.1 p vertResizeTop hpc
  subst eo
  subst ep
  exact ⟨by decide, by decide, ho, hp⟩

/-- C9: the console geometry setters invalidate the cached layout state
whatever the virtual `setExtent` and `setPosition` do.  For every control
state, every data string and every implementation of the externals, after
`setExtentFn` and after `setMinExtentFn` the stored extent is (0,0) and
`mUseRelPosH` and `mUseRelPosV` are false, and after `setPositionFn`
`mUseRelPosH` and `mUseRelPosV` are false; each of the three returns
false. -/
theorem console_setters_reset_cached_layout (ext : Externals) (data : String)
    (c : GuiControl) :
    ((setExtentFn ext data c).2.mStoredExtent = Point2I.mk 0 0 ∧
      (setExtentFn ext data c).2.mUseRelPosH = false ∧
      (setExtentFn ext data c).2.mUseRelPosV = false) ∧
    ((setMinExtentFn ext data c).2.mStoredExtent = Point2I.mk 0 0 ∧
      (setMinExtentFn ext data c).2.mUseRelPosH = false ∧
      (setMinExtentFn ext data c).2.mUseRelPosV = false) ∧
    ((setPositionFn ext data c).2.mUseRelPosH = false ∧
      (setPositionFn ext data c).2.mUseRelPosV = false) ∧
    ((setExtentFn ext data c).1 = false ∧ (setMinExtentFn ext data c).1 = false ∧
      (setPositionFn ext data c).1 = false) :=
  ⟨⟨rfl, rfl, rfl⟩, ⟨rfl, rfl, rfl⟩, ⟨rfl, rfl⟩, ⟨rfl, rfl, rfl⟩⟩

/-- C3 as stated fails: the concrete control is at least as large as its
minimum extent (64 by 64 against 8 by 2), and after `setMinExtentFn` with
the data string "100 100" it is not (64 by 64 against 100 by 100). -/
theorem setMinExtentFn_breaks_sizeAtLeastMin :
    sizeAtLeastMin demoControl ∧
    (setMinExtentFn demoExternals "100 100" demoControl).2.mBounds.extent = Point2I.mk 64 64 ∧
    (setMinExtentFn demoExternals "100 100" demoControl).2.mMinExtent = Point2I.mk 100 100 ∧
    ¬ sizeAtLeastMin (setMinExtentFn demoExternals "100 100" demoControl).2 := by
  decide

/-- C3, amended: from a state in which the control is at least as large as
its minimum extent, `resetStoredExtent`, `resetStoredRelPos`, `setTextWrap`,
`setTextExtend`, `setHorizSizing` and `setVertSizing` yield, for every
argument, a state in which it still is; `setMinExtentFn` keeps the bounds
and makes the converted coordinates of the parsed vector the minimum
extent, so the state it yields satisfies the predicate exactly when those
coordinates are at most the width and the height of the control. -/
theorem sizeAtLeastMin_preserved (ext : Externals) (c : GuiControl)
    (hinv : sizeAtLeastMin c) :
    sizeAtLeastMin (resetStoredExtent c) ∧
    sizeAtLeastMin (resetStoredRelPos c) ∧
    (∀ wrap : Bool, sizeAtLeastMin (setTextWrap wrap c)) ∧
    (∀ extend : Bool, sizeAtLeastMin (setTextExtend extend c)) ∧
    (∀ h : horizSizingOptions, sizeAtLeastMin (setHorizSizing h c)) ∧
    (∀ v : vertSizingOptions, sizeAtLeastMin (setVertSizing v c)) ∧
    (∀ data : String,
      (getBounds (setMinExtentFn ext data c).2).1 = (getBounds c).1 ∧
      (getMinExtent (setMinExtentFn ext data c).2).1 =
        Point2I.mk (ext.f32ToS32 (ext.parseVector2 data).x)
          (ext.f32ToS32 (ext.parseVector2 data).y) ∧
      (sizeAtLeastMin (setMinExtentFn ext data c).2 ↔
        ext.f32ToS32 (ext.parseVector2 data).x ≤ (getWidth c).1 ∧
        ext.f32ToS32 (ext.parseVector2 data).y ≤ (getHeight c).1)) :=
  ⟨hinv, hinv, fun _ => hinv, fun _ => hinv, fun _ => hinv, fun _ => hinv,
    fun _ => ⟨rfl, rfl, Iff.rfl⟩⟩

/-- The amended C3 at the concrete control: the predicate holds there, still
holds after `resetStoredExtent`, after `setHorizSizing horizResizeCenter`
and after `setMinExtentFn` with a data string parsed to (0.0, 0.0). -/
theorem sizeAtLeastMin_preserved_witness :
    sizeAtLeastMin demoControl ∧
    sizeAtLeastMin (resetStoredExtent demoControl) ∧
    sizeAtLeastMin (setHorizSizing horizResizeCenter demoControl) ∧
    sizeAtLeastMin (setMinExtentFn demoExternals "0 0" demoControl).2 :=
  have H := sizeAtLeastMin_preserved demoExternals demoControl (by decide)
  ⟨by decide, H.1, H.2.2.2.2.1 horizResizeCenter,
    ((H.2.2.2.2.2.2 "0 0").2.2).mpr (by decide)⟩

end GuiControl
